import Mathlib

/-!
Verification of `tractseg/libs/DirectionMerger.py`.

The module is embedded shallowly:

* numpy float arrays become total functions from `Fin`-indexed coordinates to
  `ℚ` (real/float arithmetic is idealised as exact rational arithmetic);
* a 4-dimensional probability volume of shape `(X, Y, Z, C)` is
  `Fin X → Fin Y → Fin Z → Fin C → ℚ`, and a stacked 5-dimensional volume with
  direction axis of size 3 appends a `Fin 3` argument;
* the sequential in-place masked assignments `a[a >= t] = 1; a[a < t] = 0`
  used by both fusion functions are modelled entrywise, preserving their
  order (the second assignment re-tests the already mutated entries);
* `astype(np.int16)` is modelled by truncation toward zero followed by a
  wrap into the signed 16-bit range;
* the result dtype of `mean_fusion` (float array when `probs=True`, int16
  array when `probs=False`) is captured by the inductive `NDResult`;
* the in-place mutation of `img` performed by `majority_fusion` is modelled
  by returning the mutated array as the second component of the result;
* the inference collaborator (`Trainer.get_seg_single_img`) and the model
  handle are external to the module and are abstracted as a pure function
  parameter; the mutable configuration object `HP` is threaded explicitly as
  state, with all fields other than `SLICE_DIRECTION` collapsed into an
  abstract `rest` component.
-/

/-- A 4-dimensional probability volume of shape `(X, Y, Z, C)`. -/
abbrev Vol4 (X Y Z C : ℕ) := Fin X → Fin Y → Fin Z → Fin C → ℚ

/-- A 5-dimensional stacked volume of shape `(X, Y, Z, C, 3)`, the trailing
axis indexing the three slice directions. -/
abbrev Vol5 (X Y Z C : ℕ) := Fin X → Fin Y → Fin Z → Fin C → Fin 3 → ℚ

/-- Entrywise effect of the masked assignment `a[a >= threshold] = 1`. -/
def maskedAssignGE (threshold v : ℚ) : ℚ := if threshold ≤ v then 1 else v

/-- Entrywise effect of the masked assignment `a[a < threshold] = 0`. -/
def maskedAssignLT (threshold v : ℚ) : ℚ := if v < threshold then 0 else v

/-- Entrywise effect of the source's two sequential in-place masked
assignments `a[a >= threshold] = 1` followed by `a[a < threshold] = 0`
(the second assignment tests the entries already rewritten by the first). -/
def binarizeInPlace (threshold v : ℚ) : ℚ :=
  maskedAssignLT threshold (maskedAssignGE threshold v)

/-- Truncation of a rational toward zero, as the C-style float-to-integer
conversion underlying `astype`. -/
def ratTruncate (v : ℚ) : ℤ := Int.tdiv v.num (Int.ofNat v.den)

/-- Conversion of one float entry by `astype(np.int16)`: truncate toward
zero, then wrap into the signed 16-bit range `[-2^15, 2^15)`. -/
def int16cast (v : ℚ) : ℤ := (ratTruncate v + 2 ^ 15) % 2 ^ 16 - 2 ^ 15

/-- `img.mean(axis=4)` for a stacked volume with direction axis of size 3:
the entrywise arithmetic mean of the three direction values. -/
def meanAxis4 {X Y Z C : ℕ} (img : Vol5 X Y Z C) : Vol4 X Y Z C :=
  fun x y z c => (img x y z c 0 + img x y z c 1 + img x y z c 2) / 3

/-- A 4-dimensional numpy array together with its dtype: either a float
array (`ℚ` entries) or an `np.int16` array (`ℤ` entries). -/
inductive NDResult (X Y Z C : ℕ) where
  | floatArr (data : Fin X → Fin Y → Fin Z → Fin C → ℚ)
  | int16Arr (data : Fin X → Fin Y → Fin Z → Fin C → ℤ)

/-- `DirectionMerger.mean_fusion(threshold, img, probs=True)`: take the mean
over the direction axis; when `probs` is false, apply the two sequential
masked assignments and convert the result to `np.int16`. -/
def mean_fusion {X Y Z C : ℕ} (threshold : ℚ) (img : Vol5 X Y Z C) (probs : Bool) :
    NDResult X Y Z C :=
  match probs with
  | true => NDResult.floatArr (meanAxis4 img)
  | false => NDResult.int16Arr
      (fun x y z c => int16cast (binarizeInPlace threshold (meanAxis4 img x y z c)))

/-- `DirectionMerger.majority_fusion(threshold, img, probs=None)`: binarize
`img` in place with the two sequential masked assignments, convert to
`np.int16`, sum over the direction axis, and output 1 where the vote count
is at least 2 (the masks of the final two assignments are computed from
`probs_sum`, not from the array being written, so they do not interact).
The first component is the returned array; the second component is the
caller's array `img` as left mutated in place. -/
def majority_fusion {X Y Z C : ℕ} (threshold : ℚ) (img : Vol5 X Y Z C)
    (probs : Option Bool) : (Fin X → Fin Y → Fin Z → Fin C → ℤ) × Vol5 X Y Z C :=
  let imgMutated : Vol5 X Y Z C := fun x y z c d => binarizeInPlace threshold (img x y z c d)
  let probs_combined : Fin X → Fin Y → Fin Z → Fin C → Fin 3 → ℤ :=
    fun x y z c d => int16cast (imgMutated x y z c d)
  let probs_sum : Fin X → Fin Y → Fin Z → Fin C → ℤ :=
    fun x y z c => probs_combined x y z c 0 + probs_combined x y z c 1 + probs_combined x y z c 2
  let probs_result : Fin X → Fin Y → Fin Z → Fin C → ℚ :=
    fun x y z c => if 2 ≤ probs_sum x y z c then 1 else 0
  (fun x y z c => int16cast (probs_result x y z c), imgMutated)

/-- Reshaping three equally shaped 4-dimensional volumes to a trailing
singleton axis and concatenating them along that axis (`np.concatenate`
with `axis=4`), in the given order. -/
def stack3 {X Y Z C : ℕ} (px py pz : Vol4 X Y Z C) : Vol5 X Y Z C :=
  fun x y z c d =>
    if d.val = 0 then px x y z c else if d.val = 1 then py x y z c else pz x y z c

/-- The caller-supplied configuration object `HP`: its `SLICE_DIRECTION`
field, which `get_seg_single_img_3_directions` reassigns, plus all its
remaining fields collapsed into an abstract `rest` component. -/
structure HPConfig (ρ : Type) where
  SLICE_DIRECTION : String
  rest : ρ

/-- The per-direction data accessor: `DataManagerSingleSubjectById(HP,
subject=subject)` or `DataManagerSingleSubjectByFile(HP, data=data)`. -/
inductive DataManagerSingle (ρ δ : Type) where
  | subjectById (hp : HPConfig ρ) (subject : String)
  | subjectByFile (hp : HPConfig ρ) (data : Option δ)

/-- The accessor choice made inside the loop body: `if subject:` selects the
by-identifier accessor (Python truthiness: a non-`None`, non-empty string),
otherwise the by-file accessor receives `data` unchanged. -/
def selectDataManager {ρ δ : Type} (hp : HPConfig ρ) (subject : Option String)
    (data : Option δ) : DataManagerSingle ρ δ :=
  match subject with
  | some s =>
      if s = "" then DataManagerSingle.subjectByFile hp data
      else DataManagerSingle.subjectById hp s
  | none => DataManagerSingle.subjectByFile hp data

/-- The external inference collaborator: `Trainer(model, dataManager)
.get_seg_single_img(HP, probs=True, scale_to_world_shape=...)`, abstracted
(with the opaque model handle folded in) as a pure function of the
configuration, the data accessor, and the scaling flag, returning a
probability volume paired with its reference-label volume. -/
abbrev InferenceRunner (ρ δ L : Type) (X Y Z C : ℕ) :=
  HPConfig ρ → DataManagerSingle ρ δ → Bool → Vol4 X Y Z C × L

/-- The observable outcome of one iteration of the direction loop: the
configuration as mutated by `HP.SLICE_DIRECTION = direction`, the data
accessor constructed, and the probability and reference-label volumes
returned by the inference collaborator. -/
structure DirStep (ρ δ L : Type) (X Y Z C : ℕ) where
  hp : HPConfig ρ
  dm : DataManagerSingle ρ δ
  img_probs : Vol4 X Y Z C
  img_y : L

/-- One iteration of the loop body of `get_seg_single_img_3_directions`. -/
def runDirection {ρ δ L : Type} {X Y Z C : ℕ} (inf : InferenceRunner ρ δ L X Y Z C)
    (subject : Option String) (data : Option δ) (scale_to_world_shape : Bool)
    (hp : HPConfig ρ) (direction : String) : DirStep ρ δ L X Y Z C :=
  let hpStep := { hp with SLICE_DIRECTION := direction }
  let dm := selectDataManager hpStep subject data
  let r := inf hpStep dm scale_to_world_shape
  ⟨hpStep, dm, r.1, r.2⟩

/-- Everything observable on return of `get_seg_single_img_3_directions`:
the stacked probability volume and reference-label volume it returns, the
final state of the caller's configuration object, and the sequence of
(direction, data accessor) pairs passed to the inference collaborator. -/
structure SegRun (ρ δ L : Type) (X Y Z C : ℕ) where
  probs_combined : Vol5 X Y Z C
  img_y : L
  hp : HPConfig ρ
  calls : List (String × DataManagerSingle ρ δ)

/-- `DirectionMerger.get_seg_single_img_3_directions(HP, model, subject,
data, scale_to_world_shape)`: for each direction `"x"`, `"y"`, `"z"` in
order, set `HP.SLICE_DIRECTION`, build a data accessor, invoke the
inference collaborator, and collect the probability volume; `img_y` is
overwritten on each iteration, so the one returned is the last (z)
iteration's; the three volumes are reshaped and concatenated along a new
trailing axis in the order x, y, z. -/
def get_seg_single_img_3_directions {ρ δ L : Type} {X Y Z C : ℕ}
    (inf : InferenceRunner ρ δ L X Y Z C) (hp : HPConfig ρ) (subject : Option String)
    (data : Option δ) (scale_to_world_shape : Bool) : SegRun ρ δ L X Y Z C :=
  let s1 := runDirection inf subject data scale_to_world_shape hp "x"
  let s2 := runDirection inf subject data scale_to_world_shape s1.hp "y"
  let s3 := runDirection inf subject data scale_to_world_shape s2.hp "z"
  { probs_combined := stack3 s1.img_probs s2.img_probs s3.img_probs
    img_y := s3.img_y
    hp := s3.hp
    calls := [("x", s1.dm), ("y", s2.dm), ("z", s3.dm)] }

/-! Unfolding lemmas and arithmetic facts about the embedded operations. -/

/-- Unfolding of `mean_fusion` with `probs=True`. -/
theorem mean_fusion_probs_eq {X Y Z C : ℕ} (t : ℚ) (img : Vol5 X Y Z C) :
    mean_fusion t img true = NDResult.floatArr (meanAxis4 img) := rfl

/-- Unfolding of `mean_fusion` with `probs=False`. -/
theorem mean_fusion_binary_eq {X Y Z C : ℕ} (t : ℚ) (img : Vol5 X Y Z C) :
    mean_fusion t img false = NDResult.int16Arr
      (fun x y z c => int16cast (binarizeInPlace t (meanAxis4 img x y z c))) := rfl

/-- Unfolding of the array returned by `majority_fusion`, entrywise. -/
theorem majority_fusion_fst_eq {X Y Z C : ℕ} (t : ℚ) (img : Vol5 X Y Z C)
    (p : Option Bool) (x : Fin X) (y : Fin Y) (z : Fin Z) (c : Fin C) :
    (majority_fusion t img p).1 x y z c =
      int16cast (if 2 ≤ int16cast (binarizeInPlace t (img x y z c 0))
          + int16cast (binarizeInPlace t (img x y z c 1))
          + int16cast (binarizeInPlace t (img x y z c 2)) then (1 : ℚ) else 0) := rfl

/-- The two sequential masked assignments amount to: an entry becomes 1
exactly when it was at least `threshold` and moreover `threshold ≤ 1`
(otherwise the second assignment zeroes the freshly written 1); every other
entry becomes 0. -/
theorem binarizeInPlace_eq (threshold v : ℚ) :
    binarizeInPlace threshold v = if threshold ≤ v ∧ threshold ≤ 1 then 1 else 0 := by
  unfold binarizeInPlace maskedAssignLT maskedAssignGE
  by_cases h1 : threshold ≤ v
  · by_cases h2 : threshold ≤ 1
    · rw [if_pos h1, if_neg (not_lt.mpr h2), if_pos ⟨h1, h2⟩]
    · rw [if_pos h1, if_pos (lt_of_not_le h2), if_neg (fun h => h2 h.2)]
  · rw [if_neg h1, if_pos (lt_of_not_le h1), if_neg (fun h => h1 h.1)]

/-- `astype(np.int16)` is the identity on the entry 0. -/
theorem int16cast_zero : int16cast 0 = 0 := by decide

/-- `astype(np.int16)` is the identity on the entry 1. -/
theorem int16cast_one : int16cast 1 = 1 := by decide

/-- `astype(np.int16)` maps a float 0/1 indicator to the integer one. -/
theorem int16cast_ite01 (c : Prop) [Decidable c] :
    int16cast (if c then (1 : ℚ) else 0) = if c then 1 else 0 := by
  by_cases h : c
  · rw [if_pos h, if_pos h, int16cast_one]
  · rw [if_neg h, if_neg h, int16cast_zero]

/-- Combined entrywise effect of in-place binarization followed by the
`np.int16` conversion. -/
theorem int16cast_binarize (threshold v : ℚ) :
    int16cast (binarizeInPlace threshold v) =
      if threshold ≤ v ∧ threshold ≤ 1 then 1 else 0 := by
  rw [binarizeInPlace_eq]
  exact int16cast_ite01 _

/-! Claims. -/

/-- Claim C1, counterexample: at threshold 2 on the constant stacked volume
with value 3, every voxel mean is 3 ≥ 2, yet `mean_fusion(2, img,
probs=False)` returns the all-zero array — the claimed "entry is 1 iff
mean ≥ t" fails because the second in-place assignment overwrites the 1s
whenever the threshold exceeds 1. -/
theorem mean_fusion_threshold_two_counterexample :
    ((2 : ℚ) ≤ meanAxis4 ((fun _ _ _ _ _ => 3) : Vol5 1 1 1 1) 0 0 0 0) ∧
    mean_fusion 2 ((fun _ _ _ _ _ => 3) : Vol5 1 1 1 1) false =
      NDResult.int16Arr (fun _ _ _ _ => 0) := by
  constructor
  · norm_num [meanAxis4]
  · rw [mean_fusion_binary_eq]
    congr 1
    funext x y z c
    simp only [int16cast_binarize]
    norm_num

/-- Claim C1, amended: for every stacked volume and every threshold `t`,
`mean_fusion(t, img, probs=False)` returns an `np.int16` array containing
only 0 and 1, in which an entry equals 1 if and only if the mean of its
three direction values is ≥ t AND `t ≤ 1`; for `t > 1` the second in-place
masked assignment overwrites the 1s written by the first, so every entry
is 0. -/
theorem mean_fusion_binarized_characterization {X Y Z C : ℕ} (t : ℚ)
    (img : Vol5 X Y Z C) :
    ∃ out : Fin X → Fin Y → Fin Z → Fin C → ℤ,
      mean_fusion t img false = NDResult.int16Arr out ∧
      ∀ (x : Fin X) (y : Fin Y) (z : Fin Z) (c : Fin C),
        (out x y z c = 0 ∨ out x y z c = 1) ∧
        (out x y z c = 1 ↔ (t ≤ meanAxis4 img x y z c ∧ t ≤ 1)) := by
  refine ⟨fun x y z c => int16cast (binarizeInPlace t (meanAxis4 img x y z c)),
    rfl, fun x y z c => ?_⟩
  simp only [int16cast_binarize]
  by_cases h : t ≤ meanAxis4 img x y z c ∧ t ≤ 1
  · rw [if_pos h]
    exact ⟨Or.inr rfl, iff_of_true rfl h⟩
  · rw [if_neg h]
    exact ⟨Or.inl rfl, iff_of_false (by decide) h⟩

/-- Claim C2, counterexample: at threshold 2 on the constant stacked volume
with value 3, all three direction values are ≥ 2 — so the claimed
per-direction binarization yields three votes and demands output 1 — yet
`majority_fusion` outputs 0, because its sequential in-place binarization
zeroes every entry when the threshold exceeds 1. -/
theorem majority_fusion_threshold_two_counterexample :
    ((2 : ℚ) ≤ ((fun _ _ _ _ _ => 3) : Vol5 1 1 1 1) 0 0 0 0 0) ∧
    ((2 : ℚ) ≤ ((fun _ _ _ _ _ => 3) : Vol5 1 1 1 1) 0 0 0 0 1) ∧
    ((2 : ℚ) ≤ ((fun _ _ _ _ _ => 3) : Vol5 1 1 1 1) 0 0 0 0 2) ∧
    (majority_fusion 2 ((fun _ _ _ _ _ => 3) : Vol5 1 1 1 1) none).1 0 0 0 0 = 0 := by
  refine ⟨by norm_num, by norm_num, by norm_num, ?_⟩
  rw [majority_fusion_fst_eq]
  decide

/-- Claim C2, amended: for every stacked volume, threshold `t` and third
argument, the array returned by `majority_fusion` contains only the
integers 0 and 1, and an entry equals 1 if and only if `t ≤ 1` AND at
least 2 of the voxel's 3 direction values are ≥ t; for `t > 1` the
sequential in-place binarization zeroes every entry, so all votes are 0
and the output is identically 0. -/
theorem majority_fusion_vote_characterization {X Y Z C : ℕ} (t : ℚ)
    (img : Vol5 X Y Z C) (probsFlag : Option Bool)
    (x : Fin X) (y : Fin Y) (z : Fin Z) (c : Fin C) :
    ((majority_fusion t img probsFlag).1 x y z c = 0 ∨
      (majority_fusion t img probsFlag).1 x y z c = 1) ∧
    ((majority_fusion t img probsFlag).1 x y z c = 1 ↔
      (t ≤ 1 ∧ 2 ≤ (if t ≤ img x y z c 0 then (1 : ℤ) else 0)
        + (if t ≤ img x y z c 1 then (1 : ℤ) else 0)
        + (if t ≤ img x y z c 2 then (1 : ℤ) else 0))) := by
  rw [majority_fusion_fst_eq]
  simp only [int16cast_binarize, int16cast_ite01]
  by_cases ht : t ≤ 1
  · simp only [ht, and_true]
    by_cases hs : 2 ≤ (if t ≤ img x y z c 0 then (1 : ℤ) else 0)
        + (if t ≤ img x y z c 1 then (1 : ℤ) else 0)
        + (if t ≤ img x y z c 2 then (1 : ℤ) else 0)
    · rw [if_pos hs]
      exact ⟨Or.inr rfl, iff_of_true rfl ⟨trivial, hs⟩⟩
    · rw [if_neg hs]
      exact ⟨Or.inl rfl, iff_of_false (by decide) (fun h => hs h.2)⟩
  · simp only [ht, and_false, if_false]
    rw [if_neg (by decide : ¬ (2 : ℤ) ≤ 0 + 0 + 0)]
    exact ⟨Or.inl rfl, iff_of_false (by decide) (fun h => h.1.elim)⟩

/-- Claim C3: the three directions are processed in the fixed order x, y, z
with one inference-collaborator call each, and the returned reference-label
volume is exactly the one produced by the third (z-direction) call — for
every collaborator, so the x- and y-direction labels are discarded. -/
theorem get_seg_direction_order_and_z_labels {ρ δ L : Type} {X Y Z C : ℕ}
    (inf : InferenceRunner ρ δ L X Y Z C) (hp : HPConfig ρ) (subject : Option String)
    (data : Option δ) (s : Bool) :
    (get_seg_single_img_3_directions inf hp subject data s).calls.map Prod.fst
        = ["x", "y", "z"] ∧
      (get_seg_single_img_3_directions inf hp subject data s).img_y =
        (inf { hp with SLICE_DIRECTION := "z" }
          (selectDataManager { hp with SLICE_DIRECTION := "z" } subject data) s).2 :=
  ⟨rfl, rfl⟩

/-- Claim C4: the stacked volume returned by
`get_seg_single_img_3_directions` has shape `(X, Y, Z, C, 3)` (enforced by
its type) and its trailing direction axis holds, in order, the volume of
the x-direction call at index 0, the y-direction call at index 1, and the
z-direction call at index 2. -/
theorem get_seg_stacked_volume_order {ρ δ L : Type} {X Y Z C : ℕ}
    (inf : InferenceRunner ρ δ L X Y Z C) (hp : HPConfig ρ) (subject : Option String)
    (data : Option δ) (s : Bool) (x : Fin X) (y : Fin Y) (z : Fin Z) (c : Fin C) :
    ((get_seg_single_img_3_directions inf hp subject data s).probs_combined x y z c 0 =
        (inf { hp with SLICE_DIRECTION := "x" }
          (selectDataManager { hp with SLICE_DIRECTION := "x" } subject data) s).1 x y z c) ∧
    ((get_seg_single_img_3_directions inf hp subject data s).probs_combined x y z c 1 =
        (inf { hp with SLICE_DIRECTION := "y" }
          (selectDataManager { hp with SLICE_DIRECTION := "y" } subject data) s).1 x y z c) ∧
    ((get_seg_single_img_3_directions inf hp subject data s).probs_combined x y z c 2 =
        (inf { hp with SLICE_DIRECTION := "z" }
          (selectDataManager { hp with SLICE_DIRECTION := "z" } subject data) s).1 x y z c) :=
  ⟨rfl, rfl, rfl⟩

/-- Claim C5: with probability output requested, `mean_fusion` returns the
continuous mean unchanged and without thresholding (for any threshold), so
on a volume obtained by stacking a probability volume `p` with itself three
times it returns `p` itself. -/
theorem mean_fusion_probs_idempotent_on_identical_directions {X Y Z C : ℕ}
    (t : ℚ) (p : Vol4 X Y Z C) (img : Vol5 X Y Z C) :
    mean_fusion t (stack3 p p p) true = NDResult.floatArr p ∧
      mean_fusion t img true = NDResult.floatArr (meanAxis4 img) := by
  constructor
  · rw [mean_fusion_probs_eq]
    congr 1
    funext x y z c
    show (p x y z c + p x y z c + p x y z c) / 3 = p x y z c
    ring
  · exact mean_fusion_probs_eq t img

/-- Claim C6: the result of `majority_fusion` (both the returned array and
the in-place mutation of `img`) does not depend on its third parameter;
there is no continuous-output mode for this reducer. -/
theorem majority_fusion_independent_of_probs_flag {X Y Z C : ℕ} (t : ℚ)
    (img : Vol5 X Y Z C) (p1 p2 : Option Bool) :
    majority_fusion t img p1 = majority_fusion t img p2 := rfl

/-- Claim C7: on normal completion of `get_seg_single_img_3_directions` the
caller's configuration object is left with `SLICE_DIRECTION = "z"`, and its
remaining fields (the abstract `rest` component) are unchanged. -/
theorem get_seg_config_frame_condition {ρ δ L : Type} {X Y Z C : ℕ}
    (inf : InferenceRunner ρ δ L X Y Z C) (hp : HPConfig ρ) (subject : Option String)
    (data : Option δ) (s : Bool) :
    (get_seg_single_img_3_directions inf hp subject data s).hp.SLICE_DIRECTION = "z" ∧
      (get_seg_single_img_3_directions inf hp subject data s).hp.rest = hp.rest :=
  ⟨rfl, rfl⟩

/-- Claim C8, counterexample: after `majority_fusion(3, img)` on the
constant stacked volume with value 7, the caller's array holds 0 where the
original entry 7 was ≥ 3 — not the claimed 1 — because the second in-place
masked assignment overwrites the 1 written by the first when the threshold
exceeds 1. -/
theorem majority_fusion_inplace_counterexample :
    ((3 : ℚ) ≤ ((fun _ _ _ _ _ => 7) : Vol5 1 1 1 1) 0 0 0 0 0) ∧
    (majority_fusion 3 ((fun _ _ _ _ _ => 7) : Vol5 1 1 1 1) none).2 0 0 0 0 0 = 0 := by
  constructor
  · norm_num
  · show binarizeInPlace 3 7 = 0
    decide

/-- Claim C8, amended: after `majority_fusion(t, img, probs)` returns, the
caller's input array has been mutated in place by the two sequential
masked assignments: an entry that was ≥ t is replaced by 1 when `t ≤ 1`
and by 0 when `t > 1` (the second assignment overwrites the freshly
written 1s), and every entry that was < t is replaced by 0. -/
theorem majority_fusion_inplace_characterization {X Y Z C : ℕ} (t : ℚ)
    (img : Vol5 X Y Z C) (probsFlag : Option Bool)
    (x : Fin X) (y : Fin Y) (z : Fin Z) (c : Fin C) (d : Fin 3) :
    (majority_fusion t img probsFlag).2 x y z c d =
      if t ≤ img x y z c d ∧ t ≤ 1 then 1 else 0 := by
  show binarizeInPlace t (img x y z c d) = _
  exact binarizeInPlace_eq t (img x y z c d)

/-- Claim C9: when both a truthy subject identifier and a raw data array
are supplied, every per-direction iteration builds the by-identifier data
accessor, the raw data array appears in no accessor, and no error is
raised (the function is total). -/
theorem get_seg_prefers_subject_identifier {ρ δ L : Type} {X Y Z C : ℕ}
    (inf : InferenceRunner ρ δ L X Y Z C) (hp : HPConfig ρ) (s : String)
    (hs : s ≠ "") (d : δ) (sc : Bool) :
    (get_seg_single_img_3_directions inf hp (some s) (some d) sc).calls =
      [("x", DataManagerSingle.subjectById { hp with SLICE_DIRECTION := "x" } s),
       ("y", DataManagerSingle.subjectById { hp with SLICE_DIRECTION := "y" } s),
       ("z", DataManagerSingle.subjectById { hp with SLICE_DIRECTION := "z" } s)] := by
  simp [get_seg_single_img_3_directions, runDirection, selectDataManager, hs]

/-- Claim C9, witness: a concrete run with subject `"subj"` and raw data 7
in which all three data accessors are by-identifier accessors. -/
theorem get_seg_prefers_subject_identifier_witness :
    "subj" ≠ "" ∧
    (get_seg_single_img_3_directions
        ((fun _ _ _ => ((fun _ _ _ _ => (0 : ℚ)), (0 : ℕ))) : InferenceRunner Unit ℕ ℕ 1 1 1 1)
        ⟨"init", ()⟩ (some "subj") (some (7 : ℕ)) true).calls =
      [("x", DataManagerSingle.subjectById ⟨"x", ()⟩ "subj"),
       ("y", DataManagerSingle.subjectById ⟨"y", ()⟩ "subj"),
       ("z", DataManagerSingle.subjectById ⟨"z", ()⟩ "subj")] :=
  ⟨by decide, get_seg_prefers_subject_identifier _ _ "subj" (by decide) 7 true⟩

/-- Claim C10: for every threshold `t > 1` and every stacked volume with
values in `[0, 1]`, `mean_fusion(t, img, probs=False)` returns the all-zero
array: the first masked assignment writes 1 over every entry ≥ t, and the
second masked assignment then zeroes every entry < t, including those
freshly written 1s, so no entry can remain 1. -/
theorem mean_fusion_all_zero_for_threshold_above_one {X Y Z C : ℕ} (t : ℚ)
    (ht : 1 < t) (img : Vol5 X Y Z C)
    (himg : ∀ (x : Fin X) (y : Fin Y) (z : Fin Z) (c : Fin C) (d : Fin 3),
      0 ≤ img x y z c d ∧ img x y z c d ≤ 1) :
    mean_fusion t img false = NDResult.int16Arr (fun _ _ _ _ => 0) := by
  rw [mean_fusion_binary_eq]
  congr 1
  funext x y z c
  rw [int16cast_binarize, if_neg (fun h => absurd h.2 (not_le.mpr ht))]

/-- Claim C10, witness: threshold 2 on the constant stacked volume with
value 1/2 (which lies in `[0, 1]`) produces the all-zero array. -/
theorem mean_fusion_all_zero_for_threshold_above_one_witness :
    ((1 : ℚ) < 2 ∧ 0 ≤ (1 : ℚ) / 2 ∧ (1 : ℚ) / 2 ≤ 1) ∧
    mean_fusion 2 ((fun _ _ _ _ _ => 1 / 2) : Vol5 1 1 1 1) false =
      NDResult.int16Arr (fun _ _ _ _ => 0) :=
  ⟨by norm_num,
    mean_fusion_all_zero_for_threshold_above_one 2 (by norm_num) _
      (fun _ _ _ _ _ => by norm_num)⟩
